import Mathlib

/-!
Shallow embedding of the hardware-vsync state machine and construction paths
of services/surfaceflinger/Scheduler/VsyncSchedule.cpp.

The stateful methods are embedded as pure functions from the lock-protected
state to a pair of the new state and the ordered list of externally visible
effects (Tracker model resets and invocations of the scheduler callback's
setVsyncEnabled hook) performed during the critical section.
-/

namespace VsyncSchedule

/-- The HwVsyncState enumeration guarded by mHwVsyncLock. -/
inductive HwVsyncState
  | Disabled
  | Enabled
  | Disallowed
deriving DecidableEq, Repr

/-- Physical display identifiers are opaque; a natural number stands in. -/
abbrev PhysicalDisplayId := Nat

/-- Externally visible effects of a critical section: a Tracker model reset
(getTracker().resetModel()) or a scheduler-callback invocation
(callback.setVsyncEnabled(id, enabled)), in program order. -/
inductive Event
  | resetModel
  | setVsyncEnabled (id : PhysicalDisplayId) (enabled : Bool)
deriving DecidableEq, Repr

/-- The two fields guarded by mHwVsyncLock: mHwVsyncState and
mLastHwVsyncState. -/
structure HwState where
  hwVsyncState : HwVsyncState
  lastHwVsyncState : HwVsyncState
deriving DecidableEq, Repr

/-- VsyncSchedule::enableHardwareVsync (VsyncSchedule.cpp lines 136-144):
if the state is Disabled, reset the Tracker model, invoke
callback.setVsyncEnabled(mId, true), and set both state fields to Enabled;
otherwise do nothing. -/
def enableHardwareVsync (id : PhysicalDisplayId) (s : HwState) :
    HwState × List Event :=
  if s.hwVsyncState = HwVsyncState.Disabled then
    (⟨HwVsyncState.Enabled, HwVsyncState.Enabled⟩,
      [Event.resetModel, Event.setVsyncEnabled id true])
  else
    (s, [])

/-- VsyncSchedule::disableHardwareVsync (VsyncSchedule.cpp lines 146-153):
if the state is Enabled, invoke callback.setVsyncEnabled(mId, false) and set
mLastHwVsyncState to Disabled; then unconditionally set mHwVsyncState to
Disallowed when disallow holds and to Disabled otherwise. -/
def disableHardwareVsync (id : PhysicalDisplayId) (disallow : Bool)
    (s : HwState) : HwState × List Event :=
  let afterGuard :=
    if s.hwVsyncState = HwVsyncState.Enabled then
      (HwVsyncState.Disabled, [Event.setVsyncEnabled id false])
    else
      (s.lastHwVsyncState, ([] : List Event))
  (⟨if disallow then HwVsyncState.Disallowed else HwVsyncState.Disabled,
      afterGuard.1⟩,
    afterGuard.2)

/-- VsyncSchedule::isHardwareVsyncAllowed (VsyncSchedule.cpp lines 155-158):
whether mHwVsyncState differs from Disallowed. -/
def isHardwareVsyncAllowed (s : HwState) : Bool :=
  decide (s.hwVsyncState ≠ HwVsyncState.Disallowed)

/-- VsyncSchedule::allowHardwareVsync (VsyncSchedule.cpp lines 160-165):
if the state is Disallowed, set it to Disabled; otherwise do nothing. -/
def allowHardwareVsync (s : HwState) : HwState :=
  if s.hwVsyncState = HwVsyncState.Disallowed then
    { s with hwVsyncState := HwVsyncState.Disabled }
  else
    s

/-- Modelled from the spec: the header declaring the in-class initializers of
mHwVsyncState and mLastHwVsyncState is not among the sources. Per the spec's
concrete scenario a freshly constructed schedule has hardware vsync Disabled
(the first enableHardwareVsync call invokes the callback) and the last
observed value starts out Disabled as well. -/
def initialHwState : HwState :=
  ⟨HwVsyncState.Disabled, HwVsyncState.Disabled⟩

/-- One call into the state machine: the four lock-taking operations. -/
inductive Op
  | enable
  | disable (disallow : Bool)
  | allow
  | isAllowed
deriving DecidableEq, Repr

/-- Dispatch one operation to the corresponding member function.
isHardwareVsyncAllowed and allowHardwareVsync produce no events. -/
def step (id : PhysicalDisplayId) : Op → HwState → HwState × List Event
  | Op.enable, s => enableHardwareVsync id s
  | Op.disable d, s => disableHardwareVsync id d s
  | Op.allow, s => (allowHardwareVsync s, [])
  | Op.isAllowed, s => (s, [])

/-- Run a sequence of operations, concatenating the event traces. -/
def runOps (id : PhysicalDisplayId) : List Op → HwState → HwState × List Event
  | [], s => (s, [])
  | o :: rest, s =>
      ((runOps id rest (step id o s).1).1,
        (step id o s).2 ++ (runOps id rest (step id o s).1).2)

/-- Whether an event is an invocation of the hardware-enable callback. -/
def isCallbackEvent : Event → Bool
  | Event.setVsyncEnabled _ _ => true
  | Event.resetModel => false

/-- Number of hardware-enable callback invocations in a trace. -/
def callbackCount (evs : List Event) : Nat :=
  evs.countP isCallbackEvent

/-- Whether an event is a Tracker model reset. -/
def isResetEvent : Event → Bool
  | Event.resetModel => true
  | Event.setVsyncEnabled _ _ => false

/-- Number of Tracker model resets in a trace. -/
def resetCount (evs : List Event) : Nat :=
  evs.countP isResetEvent

/-- Whether a pair of before/after states crosses a Disabled-Enabled edge. -/
def isHwEdge (a b : HwVsyncState) : Bool :=
  (a == HwVsyncState.Disabled && b == HwVsyncState.Enabled) ||
  (a == HwVsyncState.Enabled && b == HwVsyncState.Disabled)

/-- Number of Disabled-Enabled edges crossed while running a sequence. -/
def crossedEdges (id : PhysicalDisplayId) : List Op → HwState → Nat
  | [], _ => 0
  | o :: rest, s =>
      (if isHwEdge s.hwVsyncState (step id o s).1.hwVsyncState then 1 else 0)
      + crossedEdges id rest (step id o s).1

/-- Whether an operation is a disableHardwareVsync call (either flag). -/
def isDisableOp : Op → Bool
  | Op.disable _ => true
  | Op.enable => false
  | Op.allow => false
  | Op.isAllowed => false

/-- The arguments of VSyncCallbackRegistration::schedule: workDuration,
readyDuration, earliestVsync, in nanoseconds. -/
structure ScheduleTiming where
  workDuration : Int
  readyDuration : Int
  earliestVsync : Int
deriving DecidableEq, Repr

/-- The timing argument that PredictedVsyncTracer::schedule always passes:
mRegistration.schedule(\x7b0, 0, 0\x7d). -/
def zeroTiming : ScheduleTiming :=
  ⟨0, 0, 0⟩

/-- The PredictedVsyncTracer state: the TracedOrdinal bool mParity,
initialized to 0 (false). -/
structure TracerState where
  parity : Bool
deriving DecidableEq, Repr

/-- The callback made by PredictedVsyncTracer::makeVsyncCallback
(VsyncSchedule.cpp lines 37-42): ignore the three nsecs_t arguments, flip
mParity, and schedule one further invocation with zero offsets. Returns the
new tracer state and the list of schedule requests issued. -/
def tracerVsyncCallback (vsyncTime targetWakeupTime readyTime : Int)
    (st : TracerState) : TracerState × List ScheduleTiming :=
  ({ parity := !st.parity }, [zeroTiming])

/-- The PredictedVsyncTracer constructor (VsyncSchedule.cpp lines 45-48):
mParity starts false and one schedule request with zero offsets is issued. -/
def tracerConstruct : TracerState × List ScheduleTiming :=
  ({ parity := false }, [zeroTiming])

/-- The FeatureFlags consulted by VsyncSchedule construction. -/
structure FeatureFlags where
  tracePredictedVsync : Bool
  kernelIdleTimer : Bool
  presentFences : Bool
deriving DecidableEq, Repr

/-- kMaxPendingFences in VsyncSchedule::createController. -/
def kMaxPendingFences : Nat := 20

/-- Observable configuration of the VSyncReactor produced by
VsyncSchedule::createController: its constructor arguments that depend on
the inputs, plus the ordered list of setIgnorePresentFences calls made on
it before it is returned. -/
structure ReactorInit where
  maxPendingFences : Nat
  hasKernelIdleTimer : Bool
  ignorePresentFencesCalls : List Bool
deriving DecidableEq, Repr

/-- VsyncSchedule::createController (VsyncSchedule.cpp lines 122-134):
construct the reactor with kMaxPendingFences and the KernelIdleTimer flag,
then call setIgnorePresentFences with the negation of the PresentFences
flag, exactly once. -/
def createController (features : FeatureFlags) : ReactorInit :=
  { maxPendingFences := kMaxPendingFences,
    hasKernelIdleTimer := features.kernelIdleTimer,
    ignorePresentFencesCalls := [!features.presentFences] }

/-- Outcome of the default (two-argument) VsyncSchedule constructor
(VsyncSchedule.cpp lines 57-65): the controller configuration, whether the
tracer was constructed, and the initial hardware-vsync state. -/
structure ScheduleInit where
  controller : ReactorInit
  tracerPresent : Bool
  hwState : HwState
deriving DecidableEq, Repr

/-- The default VsyncSchedule constructor: create the controller via
createController, create the tracer exactly when kTracePredictedVsync is
set, and start from the initial hardware-vsync state. -/
def construct (features : FeatureFlags) : ScheduleInit :=
  { controller := createController features,
    tracerPresent := features.tracePredictedVsync,
    hwState := initialHwState }

/-- The six-step call sequence of the spec's concrete scenario. -/
def scenarioOps : List Op :=
  [Op.enable, Op.disable false, Op.disable true, Op.enable, Op.allow,
    Op.enable]

/-- C1 counterexample: from a Disallowed state, disableHardwareVsync with
disallow set to false does not leave the current state Disallowed, contrary
to the claim that enable and disable calls with either flag value keep a
Disallowed schedule Disallowed. -/
theorem c1_counterexample :
    ¬ ((disableHardwareVsync 0 false
          ⟨HwVsyncState.Disallowed, HwVsyncState.Disabled⟩).1.hwVsyncState
        = HwVsyncState.Disallowed) := by
  decide

/-- C1 amended: while the current state is Disallowed, enableHardwareVsync is
a complete no-op and disableHardwareVsync never invokes the hardware-enable
callback; disableHardwareVsync with disallow true keeps the state Disallowed,
but with disallow false it moves the state to Disabled, so allowHardwareVsync
and disableHardwareVsync with disallow false are the operations that exit
Disallowed. -/
theorem c1_amended (id : PhysicalDisplayId) (s : HwState)
    (h : s.hwVsyncState = HwVsyncState.Disallowed) :
    enableHardwareVsync id s = (s, []) ∧
    (disableHardwareVsync id true s).1.hwVsyncState
      = HwVsyncState.Disallowed ∧
    (disableHardwareVsync id true s).2 = [] ∧
    (disableHardwareVsync id false s).1.hwVsyncState
      = HwVsyncState.Disabled ∧
    (disableHardwareVsync id false s).2 = [] ∧
    (allowHardwareVsync s).hwVsyncState = HwVsyncState.Disabled := by
  rcases s with ⟨cur, last⟩
  simp only at h
  subst h
  simp [enableHardwareVsync, disableHardwareVsync, allowHardwareVsync]

/-- C1 amended, witness at the Disallowed state with display 0. -/
theorem c1_amended_witness :
    enableHardwareVsync 0 ⟨HwVsyncState.Disallowed, HwVsyncState.Disabled⟩
      = (⟨HwVsyncState.Disallowed, HwVsyncState.Disabled⟩, []) ∧
    (disableHardwareVsync 0 true
        ⟨HwVsyncState.Disallowed, HwVsyncState.Disabled⟩).1.hwVsyncState
      = HwVsyncState.Disallowed ∧
    (disableHardwareVsync 0 true
        ⟨HwVsyncState.Disallowed, HwVsyncState.Disabled⟩).2 = [] ∧
    (disableHardwareVsync 0 false
        ⟨HwVsyncState.Disallowed, HwVsyncState.Disabled⟩).1.hwVsyncState
      = HwVsyncState.Disabled ∧
    (disableHardwareVsync 0 false
        ⟨HwVsyncState.Disallowed, HwVsyncState.Disabled⟩).2 = [] ∧
    (allowHardwareVsync
        ⟨HwVsyncState.Disallowed, HwVsyncState.Disabled⟩).hwVsyncState
      = HwVsyncState.Disabled :=
  c1_amended 0 ⟨HwVsyncState.Disallowed, HwVsyncState.Disabled⟩ rfl

/-- C2: enableHardwareVsync changes anything exactly when the state is
Disabled, in which case the trace is the model reset followed by the enable
callback and both state fields become Enabled; otherwise it returns the
state unchanged with an empty trace. -/
theorem c2_enable_characterization (id : PhysicalDisplayId) (s : HwState) :
    (enableHardwareVsync id s ≠ (s, ([] : List Event)) ↔
      s.hwVsyncState = HwVsyncState.Disabled) ∧
    enableHardwareVsync id s
      = (if s.hwVsyncState = HwVsyncState.Disabled then
          (⟨HwVsyncState.Enabled, HwVsyncState.Enabled⟩,
            [Event.resetModel, Event.setVsyncEnabled id true])
        else (s, [])) := by
  rcases s with ⟨cur, last⟩
  cases cur <;> simp [enableHardwareVsync]

/-- C3: disableHardwareVsync invokes the disable callback and records
Disabled as the last-observed state exactly when the current state is
Enabled, and unconditionally sets the current state to Disallowed when
disallow holds and to Disabled otherwise. -/
theorem c3_disable_characterization (id : PhysicalDisplayId)
    (disallow : Bool) (s : HwState) :
    ((disableHardwareVsync id disallow s).2
      = if s.hwVsyncState = HwVsyncState.Enabled then
          [Event.setVsyncEnabled id false]
        else []) ∧
    ((disableHardwareVsync id disallow s).1.lastHwVsyncState
      = if s.hwVsyncState = HwVsyncState.Enabled then HwVsyncState.Disabled
        else s.lastHwVsyncState) ∧
    ((disableHardwareVsync id disallow s).1.hwVsyncState
      = if disallow then HwVsyncState.Disallowed else HwVsyncState.Disabled)
    := by
  rcases s with ⟨cur, last⟩
  cases cur <;> cases disallow <;> simp [disableHardwareVsync]

/-- Helper for C4: starting from any non-Disallowed state, a sequence of
enableHardwareVsync and disableHardwareVsync(disallow=false) calls invokes
the callback once per Disabled-Enabled edge crossed. -/
theorem callbackCount_eq_crossedEdges_of_ne_disallowed
    (id : PhysicalDisplayId) :
    ∀ ops : List Op,
      (∀ o ∈ ops, o = Op.enable ∨ o = Op.disable false) →
      ∀ s : HwState, s.hwVsyncState ≠ HwVsyncState.Disallowed →
        callbackCount (runOps id ops s).2 = crossedEdges id ops s := by
  intro ops
  induction ops with
  | nil =>
      intro _ s _
      rfl
  | cons o rest ih =>
      intro h s hs
      have hrest : ∀ o' ∈ rest, o' = Op.enable ∨ o' = Op.disable false :=
        fun o' ho' => h o' (List.mem_cons_of_mem o ho')
      rcases s with ⟨cur, last⟩
      rcases h o (List.mem_cons_self o rest) with ho | ho <;> subst ho <;>
        cases cur <;>
        simp only [runOps, crossedEdges, step, enableHardwareVsync,
          disableHardwareVsync, callbackCount, List.countP_append,
          isHwEdge] at * <;>
        simp_all [callbackCount, isCallbackEvent, List.countP_cons,
          ih hrest]

/-- C4: from the initial state, over any sequence of enableHardwareVsync
and disableHardwareVsync(disallow=false) calls, the number of
hardware-enable callback invocations equals the number of Disabled-Enabled
edges actually crossed. -/
theorem c4_callback_count_eq_edges (id : PhysicalDisplayId)
    (ops : List Op)
    (h : ∀ o ∈ ops, o = Op.enable ∨ o = Op.disable false) :
    callbackCount (runOps id ops initialHwState).2
      = crossedEdges id ops initialHwState :=
  callbackCount_eq_crossedEdges_of_ne_disallowed id ops h initialHwState
    (by decide)

/-- C4 witness at display 0 on a sequence with repeated calls. -/
theorem c4_callback_count_eq_edges_witness :
    callbackCount
        (runOps 0 [Op.enable, Op.enable, Op.disable false, Op.disable false,
          Op.enable] initialHwState).2
      = crossedEdges 0 [Op.enable, Op.enable, Op.disable false,
          Op.disable false, Op.enable] initialHwState :=
  c4_callback_count_eq_edges 0
    [Op.enable, Op.enable, Op.disable false, Op.disable false, Op.enable]
    (by decide)

/-- C5: the spec's six-step scenario from a fresh schedule (tracer feature
unset) produces per step the event traces enable-with-reset, disable, none,
none, none, enable-with-reset, and isHardwareVsyncAllowed reads true, true,
false, false, true, true after the respective steps. -/
theorem c5_scenario :
    (construct ⟨false, false, false⟩).tracerPresent = false ∧
    (construct ⟨false, false, false⟩).hwState = initialHwState ∧
    (step 0 Op.enable
        (runOps 0 (scenarioOps.take 0) initialHwState).1).2
      = [Event.resetModel, Event.setVsyncEnabled 0 true] ∧
    (step 0 (Op.disable false)
        (runOps 0 (scenarioOps.take 1) initialHwState).1).2
      = [Event.setVsyncEnabled 0 false] ∧
    (step 0 (Op.disable true)
        (runOps 0 (scenarioOps.take 2) initialHwState).1).2 = [] ∧
    (step 0 Op.enable
        (runOps 0 (scenarioOps.take 3) initialHwState).1).2 = [] ∧
    (step 0 Op.allow
        (runOps 0 (scenarioOps.take 4) initialHwState).1).2 = [] ∧
    (runOps 0 (scenarioOps.take 5) initialHwState).1.hwVsyncState
      = HwVsyncState.Disabled ∧
    (step 0 Op.enable
        (runOps 0 (scenarioOps.take 5) initialHwState).1).2
      = [Event.resetModel, Event.setVsyncEnabled 0 true] ∧
    (List.map
        (fun n =>
          isHardwareVsyncAllowed
            (runOps 0 (scenarioOps.take n) initialHwState).1)
        [1, 2, 3, 4, 5, 6])
      = [true, true, false, false, true, true] := by
  decide

/-- C6: a step triggers exactly one Tracker model reset when the operation
is enableHardwareVsync in the Disabled state and no reset otherwise, and on
that transition the trace places the reset before the hardware-enable
callback. -/
theorem c6_reset_on_disabled_enable (id : PhysicalDisplayId) (o : Op)
    (s : HwState) :
    resetCount (step id o s).2
      = (if o = Op.enable ∧ s.hwVsyncState = HwVsyncState.Disabled then 1
          else 0) ∧
    (o = Op.enable → s.hwVsyncState = HwVsyncState.Disabled →
      (step id o s).2 = [Event.resetModel, Event.setVsyncEnabled id true])
    := by
  rcases s with ⟨cur, last⟩
  cases o <;> cases cur <;>
    simp_all [step, enableHardwareVsync, disableHardwareVsync, resetCount,
      isResetEvent, List.countP_cons]

/-- C6 witness at the Disabled-to-Enabled transition for display 0. -/
theorem c6_reset_on_disabled_enable_witness :
    resetCount
        (step 0 Op.enable
          ⟨HwVsyncState.Disabled, HwVsyncState.Disabled⟩).2 = 1 ∧
    (step 0 Op.enable ⟨HwVsyncState.Disabled, HwVsyncState.Disabled⟩).2
      = [Event.resetModel, Event.setVsyncEnabled 0 true] :=
  ⟨(c6_reset_on_disabled_enable 0 Op.enable
      ⟨HwVsyncState.Disabled, HwVsyncState.Disabled⟩).1.trans (by decide),
    (c6_reset_on_disabled_enable 0 Op.enable
      ⟨HwVsyncState.Disabled, HwVsyncState.Disabled⟩).2 rfl rfl⟩

/-- C7: allowHardwareVsync produces no events, leaves the last-observed
state unchanged, and maps a Disallowed current state to Disabled while
leaving any other current state unchanged. -/
theorem c7_allow_characterization (id : PhysicalDisplayId) (s : HwState) :
    (step id Op.allow s).2 = [] ∧
    (step id Op.allow s).1.lastHwVsyncState = s.lastHwVsyncState ∧
    (step id Op.allow s).1.hwVsyncState
      = (if s.hwVsyncState = HwVsyncState.Disallowed then
          HwVsyncState.Disabled
        else s.hwVsyncState) := by
  rcases s with ⟨cur, last⟩
  cases cur <;> simp [step, allowHardwareVsync]

/-- Helper for C8: how a single step updates the last-observed state. -/
theorem step_lastHwVsyncState (id : PhysicalDisplayId) (o : Op)
    (s : HwState) :
    (step id o s).1.lastHwVsyncState
      = if o = Op.enable ∧ s.hwVsyncState = HwVsyncState.Disabled then
          HwVsyncState.Enabled
        else if isDisableOp o ∧ s.hwVsyncState = HwVsyncState.Enabled then
          HwVsyncState.Disabled
        else s.lastHwVsyncState := by
  rcases s with ⟨cur, last⟩
  cases o <;> cases cur <;>
    simp [step, enableHardwareVsync, disableHardwareVsync,
      allowHardwareVsync, isDisableOp]

/-- Helper for C8: running any sequence preserves that the last-observed
state is not Disallowed. -/
theorem runOps_last_ne_disallowed (id : PhysicalDisplayId) :
    ∀ (ops : List Op) (s : HwState),
      s.lastHwVsyncState ≠ HwVsyncState.Disallowed →
      (runOps id ops s).1.lastHwVsyncState ≠ HwVsyncState.Disallowed := by
  intro ops
  induction ops with
  | nil =>
      intro s hs
      exact hs
  | cons o rest ih =>
      intro s hs
      show (runOps id rest (step id o s).1).1.lastHwVsyncState
        ≠ HwVsyncState.Disallowed
      refine ih (step id o s).1 ?_
      rw [step_lastHwVsyncState]
      split_ifs <;> simp_all

/-- C8: in every state reachable from the initial state the last-observed
state field is never Disallowed, and a single step sets it to Enabled
exactly on the Disabled-to-Enabled enable transition, to Disabled exactly
when a disable call runs while Enabled, and leaves it unchanged in every
other case. -/
theorem c8_last_state (id : PhysicalDisplayId) :
    (∀ ops : List Op,
      (runOps id ops initialHwState).1.lastHwVsyncState
        ≠ HwVsyncState.Disallowed) ∧
    (∀ (o : Op) (s : HwState),
      (step id o s).1.lastHwVsyncState
        = if o = Op.enable ∧ s.hwVsyncState = HwVsyncState.Disabled then
            HwVsyncState.Enabled
          else if isDisableOp o ∧ s.hwVsyncState = HwVsyncState.Enabled
          then HwVsyncState.Disabled
          else s.lastHwVsyncState) :=
  ⟨fun ops => runOps_last_ne_disallowed id ops initialHwState (by decide),
    fun o s => step_lastHwVsyncState id o s⟩

/-- C9: each tracer callback invocation flips the parity exactly once and
issues exactly one schedule request with zero workDuration, readyDuration
and earliestVsync, independently of the three timestamps it receives, and
construction issues one schedule request with the same zero offsets. -/
theorem c9_tracer_parity_and_schedule (t1 t2 t3 u1 u2 u3 : Int)
    (st : TracerState) :
    (tracerVsyncCallback t1 t2 t3 st).1.parity = !st.parity ∧
    (tracerVsyncCallback t1 t2 t3 st).2 = [zeroTiming] ∧
    tracerVsyncCallback t1 t2 t3 st = tracerVsyncCallback u1 u2 u3 st ∧
    tracerConstruct.2 = [zeroTiming] := by
  refine ⟨rfl, rfl, rfl, rfl⟩

/-- C10: the default construction path calls the controller's
setIgnorePresentFences exactly once, with the negation of the PresentFences
feature flag; in particular the call is setIgnorePresentFences(false) when
PresentFences is present. -/
theorem c10_ignore_present_fences (features : FeatureFlags) :
    (construct features).controller.ignorePresentFencesCalls.length = 1 ∧
    (construct features).controller.ignorePresentFencesCalls
      = [!features.presentFences] ∧
    (features.presentFences = true →
      (construct features).controller.ignorePresentFencesCalls = [false])
    := by
  refine ⟨rfl, rfl, fun h => ?_⟩
  simp [construct, createController, h]

/-- C10 witness with the PresentFences flag present. -/
theorem c10_ignore_present_fences_witness :
    List.length
        (construct ⟨false, false, true⟩).controller.ignorePresentFencesCalls
      = 1 ∧
    (construct ⟨false, false, true⟩).controller.ignorePresentFencesCalls
      = [!(true : Bool)] ∧
    (construct ⟨false, false, true⟩).controller.ignorePresentFencesCalls
      = [false] :=
  ⟨(c10_ignore_present_fences ⟨false, false, true⟩).1,
    (c10_ignore_present_fences ⟨false, false, true⟩).2.1,
    (c10_ignore_present_fences ⟨false, false, true⟩).2.2 rfl⟩

end VsyncSchedule
